import Mathlib

/-!
Verification of the change-tracked dataset synchronization engine
(`resource/solidDataset.ts` and `resource/resource.ts`) of the
solid-client library.

The embedding below mirrors the TypeScript source: RDF terms and quads
become inductive types, an rdfjs dataset becomes an insertion-ordered
duplicate-free list of quads, the optional `internal_resourceInfo` /
`internal_changeLog` attachments become `Option`-valued fields, and each
network-facing operation becomes a pure function from its inputs and the
responses the remote store would return, to the requests it issues and
its outcome (`Except` for thrown errors).  External collaborators that
the source treats as opaque (the Turtle codec, the WHATWG URL parser,
helpers defined in files outside the excerpt) are modelled from the
specification and marked as such in their doc comments.
-/

set_option maxHeartbeats 1000000
set_option maxRecDepth 100000

namespace SolidClient

/-- RDF term, mirroring the rdf-js term types used by the source:
named nodes (global identifiers), literals (with a datatype IRI),
blank nodes, and the library's `LocalNode` (a blank node carrying an
`internal_name`, the "Local Identifier" of the spec). -/
inductive Term where
  | namedNode (iri : String)
  | literal (value : String) (datatype : String)
  | blankNode (name : String)
  | localNode (name : String)
deriving DecidableEq

/-- An RDF triple (subject, predicate, object), as in rdf-js `Quad`. -/
structure Quad where
  subject : Term
  predicate : Term
  object : Term
deriving DecidableEq

/-- The change log attached to a dataset: `internal_changeLog` with its
`additions` and `deletions` arrays. -/
structure ChangeLog where
  additions : List Quad
  deletions : List Quad
deriving DecidableEq

/-- Resource metadata: the fields of `internal_resourceInfo` that the
verified operations read or write.  `sourceIri` is optional because
`isUpdate` defensively checks `typeof sourceIri === "string"`. -/
structure ResourceInfo where
  sourceIri : Option String
  isRawData : Bool
  contentType : Option String
deriving DecidableEq

/-- A `SolidDataset`: an rdfjs dataset (modelled as an insertion-ordered,
duplicate-free list of quads) together with the optional
`internal_resourceInfo` and `internal_changeLog` attachments that the
source adds via `Object.assign`. -/
structure SolidDataset where
  quads : List Quad
  resourceInfo : Option ResourceInfo
  changeLog : Option ChangeLog
deriving DecidableEq

instance : Inhabited SolidDataset := ⟨⟨[], none, none⟩⟩

/-- JavaScript `String.prototype.endsWith`, written over the character
list so that general lemmas about it stay provable. -/
def strEndsWith (s p : String) : Bool :=
  decide (p.data.length ≤ s.data.length) &&
    decide (s.data.drop (s.data.length - p.data.length) = p.data)

/-- JavaScript `String.prototype.trim`: strips leading and trailing
whitespace, written over the character list. -/
def strTrim (s : String) : String :=
  ⟨((s.data.dropWhile Char.isWhitespace).reverse.dropWhile Char.isWhitespace).reverse⟩

/-- The rdfjs `dataset.add`: set semantics, appending only when the quad
is not already present (insertion order preserved). -/
def datasetAdd (qs : List Quad) (q : Quad) : List Quad :=
  if q ∈ qs then qs else qs ++ [q]

/-- The rdfjs `dataset.delete`: removes the quad when present. -/
def datasetDelete (qs : List Quad) (q : Quad) : List Quad :=
  qs.erase q

/-- Predicate `isLocalNode` from `datatypes.ts`: is the term a Local
Identifier? -/
def isLocalNode : Term → Bool
  | .localNode _ => true
  | _ => false

/-- Predicate `isNamedNode` from `datatypes.ts`: is the term a Global
Identifier? -/
def isNamedNode : Term → Bool
  | .namedNode _ => true
  | _ => false

/-- IRI string of a named node (`internal_toIriString` on a NamedNode);
other terms never reach it behind the source's `isNamedNode` guards. -/
def termIri : Term → String
  | .namedNode iri => iri
  | .literal v _ => v
  | .blankNode n => n
  | .localNode n => n

/-- Modelled from the spec: resolution of a Local Identifier against a
final location (section 4.2, "rewrite it to final-location#local-name").
The source's `resolveLocalIri` (in `datatypes.ts`, outside the excerpt)
computes `new URL("#" + name, resourceIri).href`. -/
def resolveLocalIri (name resourceIri : String) : String :=
  resourceIri ++ "#" ++ name

/-- Modelled from the spec: `resolveIriForLocalNode` from `datatypes.ts`
(outside the excerpt) turns a Local Identifier into the Global
Identifier it resolves to at the given location. -/
def resolveIriForLocalNode (t : Term) (resourceIri : String) : Term :=
  match t with
  | .localNode n => .namedNode (resolveLocalIri n resourceIri)
  | other => other

/-- Modelled from the spec: `resolveIriForLocalNodes` from
`datatypes.ts` (outside the excerpt) rewrites the subject and the object
of a quad when they are Local Identifiers, leaving Global Identifiers
untouched (section 4.2). -/
def resolveIriForLocalNodes (q : Quad) (resourceIri : String) : Quad :=
  { q with
    subject := if isLocalNode q.subject then resolveIriForLocalNode q.subject resourceIri else q.subject
    object := if isLocalNode q.object then resolveIriForLocalNode q.object resourceIri else q.object }

/-- Modelled from the spec: the external Graph codec's `encode`
(`triplesToTurtle` in `formats/turtle.ts`, outside the excerpt;
section 6 treats it as an opaque total serializer).  One N-Triples-style
line per quad, in order. -/
def termToTurtle : Term → String
  | .namedNode iri => "<" ++ iri ++ ">"
  | .literal v dt => "\"" ++ v ++ "\"^^<" ++ dt ++ ">"
  | .blankNode n => "_:" ++ n
  | .localNode n => "_:" ++ n

/-- Modelled from the spec: serialization of a quad by the external
Graph codec. -/
def quadToTurtle (q : Quad) : String :=
  termToTurtle q.subject ++ " " ++ termToTurtle q.predicate ++ " " ++ termToTurtle q.object ++ " .\n"

/-- Modelled from the spec: serialization of a triple list by the
external Graph codec. -/
def triplesToTurtle (qs : List Quad) : String :=
  String.join (qs.map quadToTurtle)

/-- Request configuration, mirroring the fetch-API `RequestInit` objects
the source builds (method, optional body, headers). -/
structure RequestInit where
  method : String
  body : Option String
  headers : List (String × String)
deriving DecidableEq

/-- A request as issued: target URL plus configuration. -/
structure Request where
  url : String
  init : RequestInit
deriving DecidableEq

/-- A fetch-API response as far as the source reads it: resolved URL,
status, status text, body text and headers. -/
structure Response where
  url : String
  status : Nat
  statusText : String
  body : String
  headers : List (String × String)
deriving DecidableEq

instance : Inhabited Response := ⟨⟨"", 0, "", "", []⟩⟩

/-- ASCII lower-casing of one character. -/
def charLower (c : Char) : Char :=
  if c.toNat ≥ 65 ∧ c.toNat ≤ 90 then Char.ofNat (c.toNat + 32) else c

/-- ASCII lower-casing of a string, for case-insensitive header names. -/
def strLower (s : String) : String :=
  ⟨s.data.map charLower⟩

/-- Case-insensitive header lookup, modelling `response.headers.get`. -/
def headerGet (headers : List (String × String)) (name : String) : Option String :=
  (headers.find? (fun kv => strLower kv.1 = strLower name)).map Prod.snd

/-- Modelled from the spec: `internal_isUnsuccessfulResponse` from
`resource.internal.ts` (outside the excerpt) is `!response.ok`;
a response is ok exactly when its status is in 200..299 (section 7,
"any non-2xx status"). -/
def internal_isUnsuccessfulResponse (r : Response) : Bool :=
  !(decide (200 ≤ r.status) && decide (r.status < 300))

/-- Modelled from the spec: `internal_parseResourceInfo` from
`resource.internal.ts` (outside the excerpt).  Section 4.1: the final
location is the response's resolved URL; the content type drives the
raw-vs-graph classification and its absence classifies the resource as
raw data; parsing never fails. -/
def internal_parseResourceInfo (r : Response) : ResourceInfo :=
  let contentType := headerGet r.headers "Content-Type"
  let isSolidDataset :=
    match contentType with
    | some ct =>
      let mainType : String := ⟨ct.data.takeWhile (fun c => c ≠ ';')⟩
      mainType = "text/turtle" || mainType = "application/ld+json"
    | none => false
  { sourceIri := some r.url, isRawData := !isSolidDataset, contentType := contentType }

/-- The `hasChangelog` type guard from `interfaces.ts` (outside the
excerpt): whether change-log tracking is attached. -/
def hasChangelog (d : SolidDataset) : Bool :=
  d.changeLog.isSome

/-- The `hasResourceInfo` type guard from `interfaces.ts` (outside the
excerpt): whether resource metadata is attached. -/
def hasResourceInfo (d : SolidDataset) : Bool :=
  d.resourceInfo.isSome

/-- `getSourceUrl` from `resource.ts`: the source IRI recorded in the
resource metadata, when present. -/
def getSourceUrl (d : SolidDataset) : Option String :=
  d.resourceInfo.bind ResourceInfo.sourceIri

/-- Modelled from the spec: `internal_withChangeLog` from
`thing/thing.internal.ts` (outside the excerpt).  It returns the dataset
itself when change-log tracking is already attached and otherwise
attaches an empty change log (empty additions and deletions) to a clone;
at the value level the clone is the same dataset value.  (Sections 3 and
4.3: tracking is two triple sets, initialized empty.) -/
def internal_withChangeLog (d : SolidDataset) : SolidDataset :=
  if hasChangelog d then d else { d with changeLog := some ⟨[], []⟩ }

/-- Modelled from the spec: `internal_cloneResource` from
`resource.internal.ts` (outside the excerpt) produces a fresh object
with the same content ("the returned Graph is a distinct value",
section 8); at the value level it is the identity.  The heap model
below accounts for the fresh identity. -/
def internal_cloneResource (d : SolidDataset) : SolidDataset :=
  d

/-- The `ldp.Resource` IRI from `constants.ts` (outside the excerpt;
standard LDP vocabulary). -/
def ldpResource : String :=
  "http://www.w3.org/ns/ldp#Resource"

/-- The `ldp.BasicContainer` IRI from `constants.ts` (outside the
excerpt; standard LDP vocabulary). -/
def ldpBasicContainer : String :=
  "http://www.w3.org/ns/ldp#BasicContainer"

/-- The function `isUpdate` from `solidDataset.ts`: a dataset is saved
as an update exactly when it has a change log, has resource metadata,
that metadata's `sourceIri` is a string, and that string equals the
target URL. -/
def isUpdate (d : SolidDataset) (url : String) : Bool :=
  hasChangelog d && hasResourceInfo d &&
    (match d.resourceInfo with
     | some ri =>
       match ri.sourceIri with
       | some s => decide (s = url)
       | none => false
     | none => false)

/-- The function `getNamedNodeFromLocalNode` from `solidDataset.ts`:
a Local Identifier serialized for a patch becomes the relative named
node `#name` (the target location's fragment form). -/
def getNamedNodeFromLocalNode (name : String) : Term :=
  .namedNode ("#" ++ name)

/-- The function `getNamedNodesForLocalNodes` from `solidDataset.ts`:
rewrites local subjects and objects of a quad to their fragment-form
named nodes before serialization. -/
def getNamedNodesForLocalNodes (q : Quad) : Quad :=
  { q with
    subject := match q.subject with
      | .localNode n => getNamedNodeFromLocalNode n
      | other => other
    object := match q.object with
      | .localNode n => getNamedNodeFromLocalNode n
      | other => other }

/-- The function `prepareSolidDatasetUpdate` from `solidDataset.ts`:
builds the PATCH request for a dataset with a change log.  The source's
`UpdateableDataset` type guarantees an attached change log; the `getD`
totalizes that type-level precondition. -/
def prepareSolidDatasetUpdate (d : SolidDataset) : RequestInit :=
  let cl := d.changeLog.getD ⟨[], []⟩
  let deleteStatement :=
    if cl.deletions.length > 0 then
      "DELETE DATA \x7b" ++ strTrim (triplesToTurtle (cl.deletions.map getNamedNodesForLocalNodes)) ++ "\x7d;"
    else ""
  let insertStatement :=
    if cl.additions.length > 0 then
      "INSERT DATA \x7b" ++ strTrim (triplesToTurtle (cl.additions.map getNamedNodesForLocalNodes)) ++ "\x7d;"
    else ""
  { method := "PATCH"
    body := some (deleteStatement ++ " " ++ insertStatement)
    headers := [("Content-Type", "application/sparql-update")] }

/-- The function `prepareSolidDatasetCreation` from `solidDataset.ts`:
builds the full-replace PUT request carrying the whole serialized
dataset, with create-only semantics (`If-None-Match: *`). -/
def prepareSolidDatasetCreation (d : SolidDataset) : RequestInit :=
  { method := "PUT"
    body := some (triplesToTurtle (d.quads.map getNamedNodesForLocalNodes))
    headers :=
      [("Content-Type", "text/turtle"),
       ("If-None-Match", "*"),
       ("Link", "<" ++ ldpResource ++ ">; rel=\"type\"")] }

/-- The request-building part of `saveSolidDatasetAt` in
`solidDataset.ts`: attach a change log when absent, then choose
partial-patch or full-replace via `isUpdate`. -/
def saveRequest (url : String) (d : SolidDataset) : RequestInit :=
  let dwc := internal_withChangeLog d
  if isUpdate dwc url then prepareSolidDatasetUpdate dwc
  else prepareSolidDatasetCreation dwc

/-- The errors thrown by the engine: `FetchError` from `resource.ts`
(message plus the original failed response) and the plain JavaScript
`Error` (message only). -/
inductive SaveError where
  | fetchError (message : String) (response : Response)
  | error (message : String)
deriving DecidableEq

instance {ε α : Type} [DecidableEq ε] [DecidableEq α] : DecidableEq (Except ε α)
  | .error a, .error b =>
    if h : a = b then .isTrue (congrArg Except.error h)
    else .isFalse (fun hh => h (Except.error.inj hh))
  | .error _, .ok _ => .isFalse (fun hh => Except.noConfusion hh)
  | .ok _, .error _ => .isFalse (fun hh => Except.noConfusion hh)
  | .ok a, .ok b =>
    if h : a = b then .isTrue (congrArg Except.ok h)
    else .isFalse (fun hh => h (Except.ok.inj hh))

/-- The `FetchError.statusCode` getter from `resource.ts`:
`this.response.status`. -/
def SaveError.statusCode : SaveError → Option Nat
  | .fetchError _ r => some r.status
  | .error _ => none

/-- The `FetchError.statusText` getter from `resource.ts`:
`this.response.statusText`. -/
def SaveError.statusText : SaveError → Option String
  | .fetchError _ r => some r.statusText
  | .error _ => none

/-- The response carried by a `FetchError` (its `response` field). -/
def SaveError.response : SaveError → Option Response
  | .fetchError _ r => some r
  | .error _ => none

/-- The error's `message`. -/
def SaveError.message : SaveError → String
  | .fetchError m _ => m
  | .error m => m

/-- Modelled from the spec: `internal_getReadableValue` from
`thing/thing.internal.ts` (outside the excerpt).  Section 4.3: IRIs are
rendered as-is, literals with their lexical form. -/
def internal_getReadableValue : Term → String
  | .namedNode iri => iri
  | .literal v _ => v
  | .blankNode n => n
  | .localNode n => n

/-- Per-property outstanding changes collected by
`sortChangeLogByThingAndProperty`. -/
structure PropChanges where
  added : List Term
  deleted : List Term
deriving DecidableEq

/-- A JavaScript string-keyed record with insertion-order key
enumeration, as used by `sortChangeLogByThingAndProperty`. -/
abbrev ChangeMap := List (String × List (String × PropChanges))

/-- Update the value at a key, inserting `f dflt` at the end when the
key is absent — the `m[k] ??= dflt` followed by an update idiom of the
source, with JavaScript's insertion-order key enumeration. -/
def recordUpsert {α : Type} (m : List (String × α)) (k : String) (f : α → α) (dflt : α) : List (String × α) :=
  match m with
  | [] => [(k, f dflt)]
  | (k', v) :: rest =>
    if k' = k then (k', f v) :: rest else (k', v) :: recordUpsert rest k f dflt

/-- One `??=`-and-push step of `sortChangeLogByThingAndProperty`. -/
def recordChange (m : ChangeMap) (thingUrl propertyUrl : String) (f : PropChanges → PropChanges) : ChangeMap :=
  recordUpsert m thingUrl (fun inner => recordUpsert inner propertyUrl f ⟨[], []⟩) []

/-- The function `sortChangeLogByThingAndProperty` from
`solidDataset.ts`: groups the change log's deletions, then additions, by
subject and then predicate, resolving local subjects against the source
URL and skipping entries whose subject or predicate is not a named
node. -/
def sortChangeLogByThingAndProperty (d : SolidDataset) : ChangeMap :=
  let srcUrl := (getSourceUrl d).getD ""
  let cl := d.changeLog.getD ⟨[], []⟩
  let afterDeletions := cl.deletions.foldl
    (fun m deletion =>
      let subjectNode :=
        if isLocalNode deletion.subject then resolveIriForLocalNode deletion.subject srcUrl
        else deletion.subject
      if !isNamedNode subjectNode || !isNamedNode deletion.predicate then m
      else recordChange m (termIri subjectNode) (termIri deletion.predicate)
        (fun pc => { pc with deleted := pc.deleted ++ [deletion.object] }))
    []
  cl.additions.foldl
    (fun m addition =>
      let subjectNode :=
        if isLocalNode addition.subject then resolveIriForLocalNode addition.subject srcUrl
        else addition.subject
      if !isNamedNode subjectNode || !isNamedNode addition.predicate then m
      else recordChange m (termIri subjectNode) (termIri addition.predicate)
        (fun pc => { pc with added := pc.added ++ [addition.object] }))
    afterDeletions

/-- The per-property rendering step of `changeLogAsMarkdown`: removed
values listed before added values. -/
def renderPropertyChanges (propertyUrl : String) (pc : PropChanges) : String :=
  "\nProperty: " ++ propertyUrl ++ "\n" ++
  (if pc.deleted.length > 0 then
    "- Removed:\n" ++ String.join (pc.deleted.map (fun v => "  - " ++ internal_getReadableValue v ++ "\n"))
  else "") ++
  (if pc.added.length > 0 then
    "- Added:\n" ++ String.join (pc.added.map (fun v => "  - " ++ internal_getReadableValue v ++ "\n"))
  else "")

/-- The per-thing rendering loop of `changeLogAsMarkdown`. -/
def renderChangeMap (m : ChangeMap) : String :=
  String.join (m.map (fun entry =>
    "\n### Thing: " ++ entry.1 ++ "\n" ++
    String.join (entry.2.map (fun p => renderPropertyChanges p.1 p.2))))

/-- The function `changeLogAsMarkdown` from `solidDataset.ts`: the
human-readable rendering of the outstanding changes, used in patch-mode
error messages. -/
def changeLogAsMarkdown (d : SolidDataset) : String :=
  if !hasResourceInfo d then
    "This is a newly initialized SolidDataset, so there is no source to compare it to."
  else
    let srcUrl := (getSourceUrl d).getD ""
    let cl := d.changeLog.getD ⟨[], []⟩
    if !hasChangelog d || (cl.additions.length = 0 && cl.deletions.length = 0) then
      "## Changes compared to " ++ srcUrl ++ "\n\n" ++
      "This SolidDataset has not been modified since it was fetched from " ++ srcUrl ++ ".\n"
    else
      "## Changes compared to " ++ srcUrl ++ "\n" ++
      renderChangeMap (sortChangeLogByThingAndProperty d)

/-- A `Thing`: a subject together with the dataset's quads about it
(`thing/thing.ts`, outside the excerpt). -/
structure Thing where
  subject : Term
  quads : List Quad
deriving DecidableEq

/-- Distinct subjects of a quad list, in order of first occurrence. -/
def distinctSubjects (qs : List Quad) : List Term :=
  qs.foldl (fun acc q => if q.subject ∈ acc then acc else acc ++ [q.subject]) []

/-- Modelled from the spec: `getThingAll` from `thing/thing.ts` (outside
the excerpt) groups the dataset's triples by subject (section 4.3). -/
def getThingAll (d : SolidDataset) : List Thing :=
  (distinctSubjects d.quads).map (fun s => ⟨s, d.quads.filter (fun q => q.subject = s)⟩)

/-- Modelled from the spec: `thingAsMarkdown` from `thing/thing.ts`
(outside the excerpt), a diagnostics-only rendering of one thing's
triples (sections 4.3 and 4.5: values in human-readable form, the exact
format is not load-bearing). -/
def thingAsMarkdown (t : Thing) : String :=
  "## Thing: " ++ internal_getReadableValue t.subject ++ "\n" ++
  String.join (t.quads.map (fun q =>
    "- " ++ internal_getReadableValue q.predicate ++ ": " ++ internal_getReadableValue q.object ++ "\n"))

/-- The function `getReadableChangeLogSummary` from `solidDataset.ts`:
counts the outstanding additions and deletions about one thing. -/
def getReadableChangeLogSummary (d : SolidDataset) (t : Thing) : String :=
  let cl := d.changeLog.getD ⟨[], []⟩
  let nrOfAdditions := (cl.additions.filter (fun a => a.subject = t.subject)).length
  let nrOfDeletions := (cl.deletions.filter (fun a => a.subject = t.subject)).length
  let additionString :=
    if nrOfAdditions = 1 then "1 new value added" else toString nrOfAdditions ++ " new values added"
  let deletionString :=
    if nrOfDeletions = 1 then "1 value removed" else toString nrOfDeletions ++ " values removed"
  "(" ++ additionString ++ " / " ++ deletionString ++ ")"

/-- The function `solidDatasetAsMarkdown` from `solidDataset.ts`: the
human-readable rendering of the whole dataset, used in full-replace
error messages. -/
def solidDatasetAsMarkdown (d : SolidDataset) : String :=
  let header :=
    if hasResourceInfo d then "# SolidDataset: " ++ (getSourceUrl d).getD "" ++ "\n"
    else "# SolidDataset (no URL yet)\n"
  let things := getThingAll d
  if things.length = 0 then header ++ "\n<empty>\n"
  else
    header ++ String.join (things.map (fun t =>
      "\n" ++ thingAsMarkdown t ++
      (if hasChangelog d then "\n" ++ getReadableChangeLogSummary d t ++ "\n" else "")))

/-- The loop body of `resolveLocalIrisInSolidDataset` from
`solidDataset.ts` for one quad of the snapshot: delete the unresolved
quad from the live rdfjs dataset, add its local-identifier-resolved
form. -/
def resolveQuadStep (resourceIri : String) (acc : List Quad) (q : Quad) : List Quad :=
  datasetAdd (datasetDelete acc q) (resolveIriForLocalNodes q resourceIri)

/-- The function `resolveLocalIrisInSolidDataset`, continued: fold the
loop body over a snapshot of the dataset's quads. -/
def resolveLocalIrisInSolidDataset (d : SolidDataset) : SolidDataset :=
  let resourceIri := (getSourceUrl d).getD ""
  let newQuads := d.quads.foldl (resolveQuadStep resourceIri) d.quads
  { d with quads := newQuads }

/-- The `FetchError` thrown by `saveSolidDatasetAt` on a non-2xx
response: status code and status text in the message, followed by the
mode-specific diagnostics rendering what was sent. -/
def saveFailureError (url : String) (dwc : SolidDataset) (response : Response) : SaveError :=
  let diagnostics :=
    if isUpdate dwc url then
      "The changes that were sent to the Pod are listed below.\n\n" ++ changeLogAsMarkdown dwc
    else
      "The SolidDataset that was sent to the Pod is listed below.\n\n" ++ solidDatasetAsMarkdown dwc
  .fetchError
    ("Storing the Resource at [" ++ url ++ "] failed: [" ++ toString response.status ++ "] ["
      ++ response.statusText ++ "].\n\n" ++ diagnostics)
    response

/-- The function `saveSolidDatasetAt` from `solidDataset.ts` at the
value level, given the response the store returns to the single request
it issues (that request being `saveRequest url d`): on a non-2xx
response throw a `FetchError` carrying mode-specific diagnostics, on
success return a clone with reset change log, resource metadata
pointing at the target, and local identifiers resolved. -/
def saveSolidDatasetAt (url : String) (d : SolidDataset) (response : Response) : Except SaveError SolidDataset :=
  let dwc := internal_withChangeLog d
  if internal_isUnsuccessfulResponse response then
    .error (saveFailureError url dwc response)
  else
    let resourceInfo : ResourceInfo :=
      { internal_parseResourceInfo response with sourceIri := some url, isRawData := false }
    let storedDataset : SolidDataset :=
      { internal_cloneResource dwc with
        changeLog := some ⟨[], []⟩
        resourceInfo := some resourceInfo }
    .ok (resolveLocalIrisInSolidDataset storedDataset)

/-- Splitting a character list at the first occurrence of the
scheme separator `://`: the part before and the part after. -/
def splitScheme : List Char → Option (List Char × List Char)
  | ':' :: '/' :: '/' :: tail => some ([], tail)
  | c :: rest =>
    match splitScheme rest with
    | some (pre, post) => some (c :: pre, post)
    | none => none
  | [] => none

/-- Modelled from the spec: whether a string is an absolute URL (it
carries a scheme), as the WHATWG URL parser used by the source
distinguishes (section 6, "all location values are absolute"). -/
def isAbsoluteUrl (s : String) : Bool :=
  (splitScheme s.data).isSome

/-- Modelled from the spec: `new URL(u).origin` of the WHATWG URL
parser used by the source, for scheme://host URLs: scheme and host,
path dropped. -/
def urlOrigin (u : String) : String :=
  match splitScheme u.data with
  | some (scheme, rest) => ⟨scheme ++ [':', '/', '/'] ++ rest.takeWhile (fun c => c ≠ '/')⟩
  | none => u

/-- Everything up to and including the last slash of a path. -/
def stripToLastSlash (s : String) : String :=
  ⟨(s.data.reverse.dropWhile (fun c => c ≠ '/')).reverse⟩

/-- JavaScript `String.prototype.startsWith`, over the character list. -/
def strStartsWith (s p : String) : Bool :=
  decide (s.data.take p.data.length = p.data)

/-- Modelled from the spec: `new URL(ref, base).href` of the WHATWG URL
parser used by the source, for http(s) base URLs and references without
dot segments: an absolute reference stands alone, a slash-leading
reference replaces the base's path, and any other reference replaces
the base path's last segment. -/
def urlResolve (ref base : String) : String :=
  if isAbsoluteUrl ref then ref
  else if strStartsWith ref "/" then urlOrigin base ++ ref
  else
    match splitScheme base.data with
    | some (scheme, rest) =>
      let host := rest.takeWhile (fun c => c ≠ '/')
      let path := rest.drop host.length
      let path := if path = [] then ['/'] else path
      (⟨scheme ++ [':', '/', '/'] ++ host⟩ : String) ++ stripToLastSlash ⟨path⟩ ++ ref
    | none => urlOrigin base ++ stripToLastSlash base ++ ref

/-- A `HEAD` request as issued by `getResourceInfo` and the NSS
workaround. -/
def headRequest (url : String) : Request :=
  ⟨url, { method := "HEAD", body := none, headers := [] }⟩

/-- A `DELETE` request as issued by the delete operations. -/
def deleteRequest (url : String) : Request :=
  ⟨url, { method := "DELETE", body := none, headers := [] }⟩

/-- The dummy-child `PUT` request of the NSS workaround. -/
def putDummyRequest (dummyUrl : String) : Request :=
  ⟨dummyUrl, { method := "PUT", body := none,
               headers := [("Accept", "text/turtle"), ("Content-Type", "text/turtle")] }⟩

/-- The container-creation `PUT` request of `createContainerAt`:
create-only (`If-None-Match: *`) with the container-type link header. -/
def createContainerRequest (url : String) : Request :=
  ⟨url, { method := "PUT", body := none,
          headers :=
            [("Accept", "text/turtle"),
             ("Content-Type", "text/turtle"),
             ("If-None-Match", "*"),
             ("Link", "<" ++ ldpBasicContainer ++ ">; rel=\"type\"")] }⟩

/-- The exact non-compliant NSS container-creation error message from
`solidDataset.ts` (the constant with the long
`internal_NSS_CREATE_CONTAINER_...` name). -/
def internal_NSS_CREATE_CONTAINER_SPEC_NONCOMPLIANCE_DETECTION_ERROR_MESSAGE_TO_WORKAROUND_THEIR_ISSUE_1465 : String :=
  "Can\x27t write file: PUT not supported on containers, use POST instead"

/-- The function `createContainerWithNssWorkaroundAt` from
`solidDataset.ts`: check via `getResourceInfo` (a `HEAD`) that the
container does not exist yet (a 404 is the happy path; any other
failure is rethrown; an existing container aborts), `PUT` a throwaway
dummy child, `DELETE` it, then `HEAD` the container for its metadata.
The `responses` list holds the store's responses in request order. -/
def createContainerWithNssWorkaroundAt (url : String) (responses : List Response) : List Request × Except SaveError SolidDataset :=
  let headResp := responses.getD 0 default
  if !internal_isUnsuccessfulResponse headResp then
    ([headRequest url],
     .error (.error ("The Container at [" ++ url ++ "] already exists, and therefore cannot be created again.")))
  else if headResp.status ≠ 404 then
    ([headRequest url],
     .error (.fetchError
       ("Fetching the metadata of the Resource at [" ++ url ++ "] failed: ["
         ++ toString headResp.status ++ "] [" ++ headResp.statusText ++ "].")
       headResp))
  else
    let dummyUrl := url ++ ".dummy"
    let createResponse := responses.getD 1 default
    if internal_isUnsuccessfulResponse createResponse then
      ([headRequest url, putDummyRequest dummyUrl],
       .error (.fetchError
         ("Creating the empty Container at [" ++ url ++ "] failed: ["
           ++ toString createResponse.status ++ "] [" ++ createResponse.statusText ++ "].")
         createResponse))
    else
      let containerInfoResponse := responses.getD 3 default
      ([headRequest url, putDummyRequest dummyUrl, deleteRequest dummyUrl, headRequest url],
       .ok ⟨[], some (internal_parseResourceInfo containerInfoResponse), some ⟨[], []⟩⟩)

/-- The function `createContainerAt` from `solidDataset.ts`: normalize
the URL to end in a slash, issue the create-only container `PUT`; on
the one detectable NSS error signature (status 409, status text
Conflict, trimmed body equal to the known message) fall back to the NSS
workaround; surface any other failure as a `FetchError`. -/
def createContainerAt (url0 : String) (responses : List Response) : List Request × Except SaveError SolidDataset :=
  let url := if strEndsWith url0 "/" then url0 else url0 ++ "/"
  let response := responses.getD 0 default
  if internal_isUnsuccessfulResponse response then
    if response.status = 409 && response.statusText = "Conflict" &&
        strTrim response.body = internal_NSS_CREATE_CONTAINER_SPEC_NONCOMPLIANCE_DETECTION_ERROR_MESSAGE_TO_WORKAROUND_THEIR_ISSUE_1465 then
      let rest := createContainerWithNssWorkaroundAt url (responses.drop 1)
      (createContainerRequest url :: rest.1, rest.2)
    else
      ([createContainerRequest url],
       .error (.fetchError
         ("Creating the empty Container at [" ++ url ++ "] failed: ["
           ++ toString response.status ++ "] [" ++ response.statusText ++ "].")
         response))
  else
    ([createContainerRequest url],
     .ok ⟨[], some (internal_parseResourceInfo response), some ⟨[], []⟩⟩)

/-- The function `saveSolidDatasetInContainer` from `solidDataset.ts`:
`POST` the serialized dataset to the container (with an optional slug
suggestion); the location-indicating response header is mandatory and
is resolved against the container URL's origin to form the new
resource's source IRI. -/
def saveSolidDatasetInContainer (containerUrl : String) (d : SolidDataset) (slugSuggestion : Option String) (responses : List Response) : List Request × Except SaveError SolidDataset :=
  let rawTurtle := triplesToTurtle (d.quads.map getNamedNodesForLocalNodes)
  let headers :=
    [("Content-Type", "text/turtle"), ("Link", "<" ++ ldpResource ++ ">; rel=\"type\"")] ++
    (match slugSuggestion with | some s => [("slug", s)] | none => [])
  let req : Request := ⟨containerUrl, { method := "POST", body := some rawTurtle, headers := headers }⟩
  let response := responses.getD 0 default
  if internal_isUnsuccessfulResponse response then
    ([req],
     .error (.fetchError
       ("Storing the Resource in the Container at [" ++ containerUrl ++ "] failed: ["
         ++ toString response.status ++ "] [" ++ response.statusText ++ "].\n\n"
         ++ "The SolidDataset that was sent to the Pod is listed below.\n\n"
         ++ solidDatasetAsMarkdown d)
       response))
  else
    match headerGet response.headers "Location" with
    | none => ([req], .error (.error "Could not determine the location of the newly saved SolidDataset."))
    | some locationHeader =>
      let resourceIri := urlResolve locationHeader (urlOrigin containerUrl)
      let resourceWithResourceInfo :=
        { internal_cloneResource d with resourceInfo := some ⟨some resourceIri, false, none⟩ }
      ([req], .ok (resolveLocalIrisInSolidDataset resourceWithResourceInfo))

/-- The function `createContainerInContainer` from `solidDataset.ts`:
`POST` to the parent container with the container-type link header; the
location-indicating response header is mandatory and is resolved
against the container URL's origin. -/
def createContainerInContainer (containerUrl : String) (slugSuggestion : Option String) (responses : List Response) : List Request × Except SaveError SolidDataset :=
  let headers :=
    [("Content-Type", "text/turtle"), ("Link", "<" ++ ldpBasicContainer ++ ">; rel=\"type\"")] ++
    (match slugSuggestion with | some s => [("slug", s)] | none => [])
  let req : Request := ⟨containerUrl, { method := "POST", body := none, headers := headers }⟩
  let response := responses.getD 0 default
  if internal_isUnsuccessfulResponse response then
    ([req],
     .error (.fetchError
       ("Creating an empty Container in the Container at [" ++ containerUrl ++ "] failed: ["
         ++ toString response.status ++ "] [" ++ response.statusText ++ "].")
       response))
  else
    match headerGet response.headers "Location" with
    | none => ([req], .error (.error "Could not determine the location of the newly created Container."))
    | some locationHeader =>
      let resourceIri := urlResolve locationHeader (urlOrigin containerUrl)
      ([req], .ok ⟨[], some ⟨some resourceIri, false, none⟩, none⟩)

/-- The arguments `Url | UrlString | WithResourceInfo` accepted by the
delete operations: a plain location, or a resource carrying metadata. -/
inductive ResourceArg where
  | byUrl (u : String)
  | byResource (ri : ResourceInfo)
deriving DecidableEq

/-- The location a `ResourceArg` denotes (`getSourceUrl` on a resource;
`internal_toIriString` on a URL). -/
def resourceArgUrl : ResourceArg → String
  | .byUrl u => u
  | .byResource ri => ri.sourceIri.getD ""

/-- The function `isContainer` from `resource.ts`: the location ends
with the container path separator. -/
def isContainer (r : ResourceArg) : Bool :=
  strEndsWith (resourceArgUrl r) "/"

/-- The function `deleteContainer` from `solidDataset.ts`: refuse
locally (before any request) when the target is not container-shaped;
otherwise issue the `DELETE` and surface a non-2xx as a `FetchError`. -/
def deleteContainer (container : ResourceArg) (responses : List Response) : List Request × Except SaveError Unit :=
  let url := resourceArgUrl container
  if !isContainer container then
    ([],
     .error (.error ("You\x27re trying to delete the Container at [" ++ url
       ++ "], but Container URLs should end in a `/`. Are you sure this is a Container?")))
  else
    let response := responses.getD 0 default
    ([deleteRequest url],
     if internal_isUnsuccessfulResponse response then
       .error (.fetchError
         ("Deleting the Container at [" ++ url ++ "] failed: ["
           ++ toString response.status ++ "] [" ++ response.statusText ++ "].")
         response)
     else .ok ())

/-- A heap of dataset objects, for the object-identity aspects of the
save pipeline: JavaScript objects become references (indices) into this
store, so that in-place mutation and cloning are observable. -/
structure Heap where
  objs : List SolidDataset
deriving DecidableEq

/-- Dereference. -/
def Heap.get (h : Heap) (r : Nat) : SolidDataset :=
  h.objs.getD r default

/-- In-place update of the object a reference denotes. -/
def Heap.put (h : Heap) (r : Nat) (d : SolidDataset) : Heap :=
  ⟨h.objs.set r d⟩

/-- Allocation of a fresh object. -/
def Heap.alloc (h : Heap) (d : SolidDataset) : Heap × Nat :=
  (⟨h.objs ++ [d]⟩, h.objs.length)

/-- Modelled from the spec: `internal_withChangeLog` at the reference
level — the dataset itself when tracking is attached, otherwise a fresh
clone (`internal_cloneResource`) with an empty change log assigned. -/
def internal_withChangeLogRef (h : Heap) (r : Nat) : Heap × Nat :=
  if hasChangelog (h.get r) then (h, r)
  else h.alloc { h.get r with changeLog := some ⟨[], []⟩ }

/-- The function `resolveLocalIrisInSolidDataset` at the reference
level: it mutates the dataset it is given in place (`delete`/`add` on
the live rdfjs dataset) and returns that same object. -/
def resolveLocalIrisInSolidDatasetRef (h : Heap) (r : Nat) : Heap × Nat :=
  (h.put r (resolveLocalIrisInSolidDataset (h.get r)), r)

/-- The function `saveSolidDatasetAt` from `solidDataset.ts` at the
reference level, making object identity observable: the input reference
`r`, the clone taken on success, and the in-place local-IRI resolution
applied to that clone.  Returns the final heap and, on success, the
reference to the returned dataset. -/
def saveSolidDatasetAtRef (url : String) (h : Heap) (r : Nat) (response : Response) : Heap × Except SaveError Nat :=
  let hr := internal_withChangeLogRef h r
  let h1 := hr.1
  let rc := hr.2
  let dwc := h1.get rc
  if internal_isUnsuccessfulResponse response then
    (h1, .error (saveFailureError url dwc response))
  else
    let resourceInfo : ResourceInfo :=
      { internal_parseResourceInfo response with sourceIri := some url, isRawData := false }
    let hs := h1.alloc { dwc with changeLog := some ⟨[], []⟩, resourceInfo := some resourceInfo }
    let hr2 := resolveLocalIrisInSolidDatasetRef hs.1 hs.2
    (hr2.1, .ok hr2.2)

/-! Spec-side characterizations (refinement targets) and shared
concrete examples. -/

/-- Follows the spec's words (section 4.4, partial-patch): "a deletion
clause for every triple in the Change Log's deletions (Local
Identifiers resolved to this location's fragment form before
serialization); omitted when its triple set is empty". -/
def deletionClauseSpec (ts : List Quad) : String :=
  if ts.isEmpty then ""
  else "DELETE DATA \x7b" ++ strTrim (triplesToTurtle (ts.map getNamedNodesForLocalNodes)) ++ "\x7d;"

/-- Follows the spec's words (section 4.4, partial-patch): "an
insertion clause for every triple in its additions; omitted when its
triple set is empty". -/
def insertionClauseSpec (ts : List Quad) : String :=
  if ts.isEmpty then ""
  else "INSERT DATA \x7b" ++ strTrim (triplesToTurtle (ts.map getNamedNodesForLocalNodes)) ++ "\x7d;"

/-- Follows the spec's words (section 4.4, partial-patch): the body is,
in order, the deletion clause followed by the insertion clause. -/
def patchBodySpec (cl : ChangeLog) : String :=
  deletionClauseSpec cl.deletions ++ " " ++ insertionClauseSpec cl.additions

/-- Count of (possibly overlapping) occurrences of a pattern in a
character list. -/
def listCountOcc (pat : List Char) : List Char → Nat
  | [] => 0
  | c :: rest =>
    (if (c :: rest).take pat.length = pat then 1 else 0) + listCountOcc pat rest

/-- Count of occurrences of a non-empty pattern in a string, used to
state "exactly one deletion clause / insertion clause". -/
def countOccurrences (s pat : String) : Nat :=
  listCountOcc pat.data s.data

/-- Example global identifier for the resource of Scenario A. -/
def exDoc : Term := .namedNode "https://x/doc"

/-- Example predicate. -/
def exTitle : Term := .namedNode "https://schema.org/title"

/-- Example literal value A. -/
def exLitA : Term := .literal "A" "http://www.w3.org/2001/XMLSchema#string"

/-- Example literal value B. -/
def exLitB : Term := .literal "B" "http://www.w3.org/2001/XMLSchema#string"

/-- Resource metadata of a dataset fetched from the example location. -/
def exInfoDoc : ResourceInfo := ⟨some "https://x/doc", false, some "text/turtle"⟩

/-- A dataset whose metadata matches the example location but that
carries no change log. -/
def exDatasetNoChangeLog : SolidDataset :=
  ⟨[⟨exDoc, exTitle, exLitB⟩], some exInfoDoc, none⟩

/-- Scenario A: fetched with title "A", locally changed to title "B"
(change log: delete the A triple, add the B triple). -/
def exDatasetScenarioA : SolidDataset :=
  ⟨[⟨exDoc, exTitle, exLitB⟩], some exInfoDoc,
    some ⟨[⟨exDoc, exTitle, exLitB⟩], [⟨exDoc, exTitle, exLitA⟩]⟩⟩

/-! Claim C1: the partial-patch / full-replace decision. -/

/-- Claim C1, counterexample: a dataset whose resource metadata matches
the target but that carries no change-log tracking is nevertheless
saved with a PATCH (the engine attaches an empty change log before
deciding), while the claim requires a full-replace PUT for it. -/
theorem c1_counterexample :
    hasChangelog exDatasetNoChangeLog = false ∧
    getSourceUrl exDatasetNoChangeLog = some "https://x/doc" ∧
    (saveRequest "https://x/doc" exDatasetNoChangeLog).method = "PATCH" ∧
    (saveRequest "https://x/doc" exDatasetNoChangeLog).method ≠ "PUT" := by
  refine ⟨rfl, rfl, rfl, ?_⟩
  decide

/-- Claim C1 (amended): `saveSolidDatasetAt` builds a partial-patch
PATCH request if and only if the dataset's resource metadata records a
source location equal to the target URL — change-log tracking plays no
role in the decision, because a missing change log is replaced by an
empty one before `isUpdate` runs; in every other case the engine sends
a full-replace PUT of the whole serialized dataset. -/
theorem c1_patch_eligibility (url : String) (d : SolidDataset) :
    ((saveRequest url d).method = "PATCH" ↔ getSourceUrl d = some url) ∧
    (getSourceUrl d ≠ some url →
      (saveRequest url d).method = "PUT" ∧
      (saveRequest url d).body = some (triplesToTurtle (d.quads.map getNamedNodesForLocalNodes))) := by
  rcases d with ⟨qs, ri, cl⟩
  rcases ri with _ | ⟨si, raw, ct⟩
  · cases cl <;>
      simp [saveRequest, internal_withChangeLog, hasChangelog, hasResourceInfo, isUpdate,
        getSourceUrl, prepareSolidDatasetUpdate, prepareSolidDatasetCreation]
  · rcases si with _ | s
    · cases cl <;>
        simp [saveRequest, internal_withChangeLog, hasChangelog, hasResourceInfo, isUpdate,
          getSourceUrl, prepareSolidDatasetUpdate, prepareSolidDatasetCreation]
    · by_cases hs : s = url
      · subst hs
        cases cl <;>
          simp [saveRequest, internal_withChangeLog, hasChangelog, hasResourceInfo, isUpdate,
            getSourceUrl, prepareSolidDatasetUpdate, prepareSolidDatasetCreation]
      · cases cl <;>
          simp [saveRequest, internal_withChangeLog, hasChangelog, hasResourceInfo, isUpdate,
            getSourceUrl, prepareSolidDatasetUpdate, prepareSolidDatasetCreation, hs]

/-- Claim C1 (amended), witness: on the example dataset the matching
target gets a PATCH and a different target gets a PUT. -/
theorem c1_patch_eligibility_witness :
    (saveRequest "https://x/doc" exDatasetNoChangeLog).method = "PATCH" ∧
    (saveRequest "https://y/other" exDatasetNoChangeLog).method = "PUT" :=
  ⟨(c1_patch_eligibility "https://x/doc" exDatasetNoChangeLog).1.mpr (by decide),
   ((c1_patch_eligibility "https://y/other" exDatasetNoChangeLog).2 (by decide)).1⟩

/-! Claim C2: the partial-patch request body. -/

/-- Claim C2: for a dataset with a change log, the PATCH request built
by `prepareSolidDatasetUpdate` is a sparql-update whose body is, in
order, the deletion clause over every triple of the change log's
deletions followed by the insertion clause over every triple of its
additions, local identifiers rewritten to fragment form, each clause
omitted when its triple set is empty. -/
theorem c2_patch_body (d : SolidDataset) (cl : ChangeLog) (h : d.changeLog = some cl) :
    prepareSolidDatasetUpdate d =
      ⟨"PATCH", some (patchBodySpec cl), [("Content-Type", "application/sparql-update")]⟩ := by
  rcases cl with ⟨adds, dels⟩
  cases adds <;> cases dels <;>
    simp [prepareSolidDatasetUpdate, h, patchBodySpec, deletionClauseSpec, insertionClauseSpec]

/-- Claim C2, witness (Scenario A): after removing the title-"A" triple
and adding the title-"B" triple, the patch body contains exactly one
deletion clause for the removed triple followed by exactly one
insertion clause for the added triple. -/
theorem c2_patch_body_witness :
    exDatasetScenarioA.changeLog =
      some ⟨[⟨exDoc, exTitle, exLitB⟩], [⟨exDoc, exTitle, exLitA⟩]⟩ ∧
    prepareSolidDatasetUpdate exDatasetScenarioA =
      ⟨"PATCH",
       some ("DELETE DATA \x7b<https://x/doc> <https://schema.org/title> \"A\"^^<http://www.w3.org/2001/XMLSchema#string> .\x7d; "
         ++ "INSERT DATA \x7b<https://x/doc> <https://schema.org/title> \"B\"^^<http://www.w3.org/2001/XMLSchema#string> .\x7d;"),
       [("Content-Type", "application/sparql-update")]⟩ ∧
    countOccurrences (patchBodySpec ⟨[⟨exDoc, exTitle, exLitB⟩], [⟨exDoc, exTitle, exLitA⟩]⟩) "DELETE DATA" = 1 ∧
    countOccurrences (patchBodySpec ⟨[⟨exDoc, exTitle, exLitB⟩], [⟨exDoc, exTitle, exLitA⟩]⟩) "INSERT DATA" = 1 :=
  ⟨rfl,
   (c2_patch_body exDatasetScenarioA _ rfl).trans (by decide),
   by decide, by decide⟩

/-! Claim C10: empty-change-log saves at the fetched location. -/

/-- Claim C10: a dataset whose metadata matches the target but whose
change log is absent or empty is still saved with a PATCH whose body
carries neither clause (whitespace only), and a 2xx response makes the
save succeed. -/
theorem c10_empty_changelog_patch (url : String) (d : SolidDataset) (resp : Response) (ri : ResourceInfo)
    (hri : d.resourceInfo = some ri) (hsi : ri.sourceIri = some url)
    (hcl : d.changeLog = none ∨ d.changeLog = some ⟨[], []⟩) :
    saveRequest url d = ⟨"PATCH", some " ", [("Content-Type", "application/sparql-update")]⟩ ∧
    (internal_isUnsuccessfulResponse resp = false →
      ∃ ds, saveSolidDatasetAt url d resp = .ok ds) := by
  constructor
  · rcases hcl with hcl | hcl <;>
      simp [saveRequest, internal_withChangeLog, hasChangelog, hasResourceInfo, isUpdate,
        hcl, hri, hsi, prepareSolidDatasetUpdate]
  · intro hok
    have hrun : saveSolidDatasetAt url d resp =
        .ok (resolveLocalIrisInSolidDataset
          { internal_cloneResource (internal_withChangeLog d) with
            changeLog := some ⟨[], []⟩
            resourceInfo := some { internal_parseResourceInfo resp with sourceIri := some url, isRawData := false } }) := by
      simp [saveSolidDatasetAt, hok]
    exact ⟨_, hrun⟩

/-- Claim C10, witness: the example dataset without a change log is
saved at its own location with the whitespace-only PATCH and a 201
response yields success. -/
theorem c10_empty_changelog_patch_witness :
    saveRequest "https://x/doc" exDatasetNoChangeLog =
      ⟨"PATCH", some " ", [("Content-Type", "application/sparql-update")]⟩ ∧
    (internal_isUnsuccessfulResponse ⟨"https://x/doc", 201, "Created", "", []⟩ = false →
      ∃ ds, saveSolidDatasetAt "https://x/doc" exDatasetNoChangeLog ⟨"https://x/doc", 201, "Created", "", []⟩ = .ok ds) :=
  c10_empty_changelog_patch "https://x/doc" exDatasetNoChangeLog
    ⟨"https://x/doc", 201, "Created", "", []⟩ exInfoDoc rfl rfl (Or.inl rfl)

/-! Claim C4: idempotence of Local Identifier resolution. -/

/-- A quad with no Local Identifier in subject or object position (the
two positions resolution rewrites; section 3 keeps predicates global). -/
def quadFullyResolved (q : Quad) : Bool :=
  !isLocalNode q.subject && !isLocalNode q.object

lemma resolveIriForLocalNodes_of_resolved {q : Quad} (h : quadFullyResolved q = true) (iri : String) :
    resolveIriForLocalNodes q iri = q := by
  rcases q with ⟨s, p, o⟩
  simp only [quadFullyResolved, Bool.and_eq_true, Bool.not_eq_true'] at h
  simp [resolveIriForLocalNodes, h.1, h.2]

lemma quadFullyResolved_resolve (q : Quad) (iri : String) :
    quadFullyResolved (resolveIriForLocalNodes q iri) = true := by
  rcases q with ⟨s, p, o⟩
  cases s <;> cases o <;>
    simp [resolveIriForLocalNodes, resolveIriForLocalNode, isLocalNode, quadFullyResolved]

lemma datasetAdd_nodup {qs : List Quad} (h : qs.Nodup) (q : Quad) : (datasetAdd qs q).Nodup := by
  unfold datasetAdd
  split
  · exact h
  · next hq => exact ((List.perm_append_singleton q qs).nodup_iff).mpr (List.nodup_cons.mpr ⟨hq, h⟩)

lemma mem_datasetAdd {qs : List Quad} {q x : Quad} (h : x ∈ datasetAdd qs q) : x ∈ qs ∨ x = q := by
  unfold datasetAdd at h
  split at h
  · exact Or.inl h
  · rcases List.mem_append.mp h with h | h
    · exact Or.inl h
    · exact Or.inr (List.mem_singleton.mp h)

lemma resolveFold_resolved (iri : String) :
    ∀ (rest acc : List Quad), acc.Nodup →
      (∀ x ∈ acc, quadFullyResolved x = true ∨ x ∈ rest) →
      (rest.foldl (resolveQuadStep iri) acc).Nodup ∧
        ∀ x ∈ rest.foldl (resolveQuadStep iri) acc, quadFullyResolved x = true := by
  intro rest
  induction rest with
  | nil =>
    intro acc hnd hmem
    refine ⟨hnd, fun x hx => ?_⟩
    rcases hmem x hx with h | h
    · exact h
    · exact absurd h (List.not_mem_nil x)
  | cons q rs ih =>
    intro acc hnd hmem
    simp only [List.foldl_cons]
    apply ih
    · exact datasetAdd_nodup (hnd.erase q) _
    · intro x hx
      rcases mem_datasetAdd hx with hx' | hx2
      · have hxa : x ∈ acc := List.mem_of_mem_erase hx'
        have hxq : x ≠ q := ((List.Nodup.mem_erase_iff hnd).mp hx').1
        rcases hmem x hxa with h | h
        · exact Or.inl h
        · rcases List.mem_cons.mp h with h | h
          · exact absurd h hxq
          · exact Or.inr h
      · subst hx2
        exact Or.inl (quadFullyResolved_resolve q iri)

lemma resolveFold_id (iri : String) :
    ∀ (rest done : List Quad), (rest ++ done).Nodup →
      (∀ x ∈ rest, quadFullyResolved x = true) →
      rest.foldl (resolveQuadStep iri) (rest ++ done) = done ++ rest := by
  intro rest
  induction rest with
  | nil => intro done _ _; simp
  | cons q rs ih =>
    intro done hnd hres
    have hq : quadFullyResolved q = true := hres q (List.mem_cons_self q rs)
    have hnd' : (q :: (rs ++ done)).Nodup := by simpa using hnd
    have hqnotmem : q ∉ rs ++ done := (List.nodup_cons.mp hnd').1
    have hstep : resolveQuadStep iri (q :: (rs ++ done)) q = rs ++ (done ++ [q]) := by
      unfold resolveQuadStep datasetDelete datasetAdd
      rw [List.erase_cons_head, resolveIriForLocalNodes_of_resolved hq, if_neg hqnotmem,
        List.append_assoc]
    have hnd2 : (rs ++ (done ++ [q])).Nodup := by
      rw [← List.append_assoc]
      exact ((List.perm_append_singleton q (rs ++ done)).nodup_iff).mpr hnd'
    have hih := ih (done ++ [q]) hnd2 (fun x hx => hres x (List.mem_cons_of_mem q hx))
    calc (q :: rs).foldl (resolveQuadStep iri) ((q :: rs) ++ done)
        = rs.foldl (resolveQuadStep iri) (resolveQuadStep iri (q :: (rs ++ done)) q) := by
          simp [List.foldl_cons]
      _ = rs.foldl (resolveQuadStep iri) (rs ++ (done ++ [q])) := by rw [hstep]
      _ = (done ++ [q]) ++ rs := hih
      _ = done ++ q :: rs := by simp

/-- Claim C4: resolving Local Identifiers is idempotent — applying
`resolveLocalIrisInSolidDataset` twice yields the same dataset as
applying it once — and on a dataset all of whose quads already carry no
Local Identifier it is the identity. -/
theorem c4_resolution_idempotent (d : SolidDataset) (hnd : d.quads.Nodup) :
    resolveLocalIrisInSolidDataset (resolveLocalIrisInSolidDataset d) =
      resolveLocalIrisInSolidDataset d ∧
    ((∀ q ∈ d.quads, quadFullyResolved q = true) → resolveLocalIrisInSolidDataset d = d) := by
  constructor
  · set d1 := resolveLocalIrisInSolidDataset d with hd1
    have h1 := resolveFold_resolved ((getSourceUrl d).getD "") d.quads d.quads hnd
      (fun x hx => Or.inr hx)
    have hnd1 : d1.quads.Nodup := h1.1
    have hres1 : ∀ x ∈ d1.quads, quadFullyResolved x = true := h1.2
    have hid := resolveFold_id ((getSourceUrl d1).getD "") d1.quads [] (by simpa using hnd1) hres1
    have heq : resolveLocalIrisInSolidDataset d1 =
        { d1 with quads := d1.quads.foldl (resolveQuadStep ((getSourceUrl d1).getD "")) d1.quads } := rfl
    rw [heq, show d1.quads.foldl (resolveQuadStep ((getSourceUrl d1).getD "")) d1.quads = d1.quads from by
      simpa using hid]
  · intro hres
    have hid := resolveFold_id ((getSourceUrl d).getD "") d.quads [] (by simpa using hnd) hres
    have heq : resolveLocalIrisInSolidDataset d =
        { d with quads := d.quads.foldl (resolveQuadStep ((getSourceUrl d).getD "")) d.quads } := rfl
    rw [heq, show d.quads.foldl (resolveQuadStep ((getSourceUrl d).getD "")) d.quads = d.quads from by
      simpa using hid]

/-- A dataset holding an unresolved Local Identifier, as built before a
first save. -/
def exDatasetWithLocal : SolidDataset :=
  ⟨[⟨exDoc, exTitle, .localNode "note1"⟩, ⟨.localNode "note1", exTitle, exLitA⟩],
    some exInfoDoc, some ⟨[], []⟩⟩

/-- Claim C4, witness: on a concrete dataset carrying a Local
Identifier, resolving twice equals resolving once. -/
theorem c4_resolution_idempotent_witness :
    exDatasetWithLocal.quads.Nodup ∧
    resolveLocalIrisInSolidDataset (resolveLocalIrisInSolidDataset exDatasetWithLocal) =
      resolveLocalIrisInSolidDataset exDatasetWithLocal :=
  ⟨by decide, (c4_resolution_idempotent exDatasetWithLocal (by decide)).1⟩

/-! Claim C3: no in-place mutation; the returned dataset is a distinct
clone with reset change log and retargeted metadata. -/

lemma heap_get_alloc_lt {h : Heap} {r : Nat} (hr : r < h.objs.length) (d : SolidDataset) :
    (h.alloc d).1.get r = h.get r := by
  simp only [Heap.alloc, Heap.get]
  exact List.getD_append _ _ _ _ hr

lemma heap_get_alloc_self (h : Heap) (d : SolidDataset) :
    (h.alloc d).1.get (h.alloc d).2 = d := by
  simp only [Heap.alloc, Heap.get]
  rw [List.getD_append_right _ _ _ _ (le_refl _)]
  simp

lemma heap_get_put_ne {h : Heap} {s r : Nat} (hne : s ≠ r) {d : SolidDataset} :
    (h.put s d).get r = h.get r := by
  simp only [Heap.put, Heap.get, List.getD_eq_getElem?_getD]
  rw [List.getElem?_set_ne hne]

lemma heap_get_put_self {h : Heap} {s : Nat} (hs : s < h.objs.length) (d : SolidDataset) :
    (h.put s d).get s = d := by
  simp only [Heap.put, Heap.get, List.getD_eq_getElem?_getD]
  rw [List.getElem?_set_self hs]
  rfl

lemma withChangeLogRef_get {h : Heap} {r s : Nat} (hs : s < h.objs.length) :
    (internal_withChangeLogRef h r).1.get s = h.get s := by
  unfold internal_withChangeLogRef
  split
  · rfl
  · exact heap_get_alloc_lt hs _

lemma withChangeLogRef_len {h : Heap} {r : Nat} :
    h.objs.length ≤ (internal_withChangeLogRef h r).1.objs.length := by
  unfold internal_withChangeLogRef
  split
  · exact le_refl _
  · simp [Heap.alloc]

lemma withChangeLogRef_ref_lt {h : Heap} {r : Nat} (hr : r < h.objs.length) :
    (internal_withChangeLogRef h r).2 < (internal_withChangeLogRef h r).1.objs.length := by
  unfold internal_withChangeLogRef
  split
  · exact hr
  · simp [Heap.alloc]

lemma resolveLocalIris_resourceInfo (d : SolidDataset) :
    (resolveLocalIrisInSolidDataset d).resourceInfo = d.resourceInfo := rfl

lemma resolveLocalIris_changeLog (d : SolidDataset) :
    (resolveLocalIrisInSolidDataset d).changeLog = d.changeLog := rfl

lemma saveRef_failure (url : String) (h : Heap) (r : Nat) (resp : Response)
    (hu : internal_isUnsuccessfulResponse resp = true) :
    saveSolidDatasetAtRef url h r resp =
      ((internal_withChangeLogRef h r).1,
       .error (saveFailureError url
         ((internal_withChangeLogRef h r).1.get (internal_withChangeLogRef h r).2) resp)) := by
  simp [saveSolidDatasetAtRef, hu]

/-- Claim C3: `saveSolidDatasetAt` never mutates the dataset object
passed in — after the call the input reference still holds exactly its
old value (triples, resource metadata and change log) — and on success
it returns a distinct object whose change log is reset to empty and
whose resource metadata points at the target location. -/
theorem c3_no_mutation (url : String) (h : Heap) (r : Nat) (resp : Response)
    (hr : r < h.objs.length) :
    (saveSolidDatasetAtRef url h r resp).1.get r = h.get r ∧
    ∀ rs, (saveSolidDatasetAtRef url h r resp).2 = .ok rs →
      rs ≠ r ∧
      ((saveSolidDatasetAtRef url h r resp).1.get rs).changeLog = some ⟨[], []⟩ ∧
      getSourceUrl ((saveSolidDatasetAtRef url h r resp).1.get rs) = some url := by
  cases hu : internal_isUnsuccessfulResponse resp with
  | true =>
    rw [saveRef_failure url h r resp hu]
    refine ⟨withChangeLogRef_get hr, ?_⟩
    intro rs hok
    simp at hok
  | false =>
    set h1 := (internal_withChangeLogRef h r).1 with hh1
    set rc := (internal_withChangeLogRef h r).2 with hrc
    set stored : SolidDataset :=
      { h1.get rc with
        changeLog := some ⟨[], []⟩
        resourceInfo := some { internal_parseResourceInfo resp with sourceIri := some url, isRawData := false } }
      with hstored
    have hrun : saveSolidDatasetAtRef url h r resp =
        ((h1.alloc stored).1.put (h1.alloc stored).2
           (resolveLocalIrisInSolidDataset ((h1.alloc stored).1.get (h1.alloc stored).2)),
         .ok (h1.alloc stored).2) := by
      simp only [hh1, hrc, hstored]
      simp [saveSolidDatasetAtRef, resolveLocalIrisInSolidDatasetRef, hu]
    have hlen1 : h.objs.length ≤ h1.objs.length := by rw [hh1]; exact withChangeLogRef_len
    have hr1 : r < h1.objs.length := lt_of_lt_of_le hr hlen1
    have hrs : (h1.alloc stored).2 = h1.objs.length := rfl
    have hne : (h1.alloc stored).2 ≠ r := by rw [hrs]; omega
    have hlt : (h1.alloc stored).2 < (h1.alloc stored).1.objs.length := by
      simp [Heap.alloc]
    rw [hrun]
    constructor
    · rw [heap_get_put_ne hne, heap_get_alloc_lt hr1, hh1]
      exact withChangeLogRef_get hr
    · intro rs hok
      have hrs_eq : rs = (h1.alloc stored).2 := by
        injection hok with hinj
        exact hinj.symm
      subst hrs_eq
      refine ⟨hne, ?cl, ?src⟩
      case cl =>
        rw [heap_get_put_self hlt, heap_get_alloc_self, resolveLocalIris_changeLog, hstored]
      case src =>
        rw [heap_get_put_self hlt, heap_get_alloc_self]
        simp [getSourceUrl, resolveLocalIris_resourceInfo, hstored]

/-- Claim C3, witness: on a one-object heap holding the Scenario A
dataset, a successful save leaves the input object untouched and
returns a distinct reference with reset change log and retargeted
metadata. -/
theorem c3_no_mutation_witness :
    0 < (Heap.mk [exDatasetScenarioA]).objs.length ∧
    ((saveSolidDatasetAtRef "https://x/doc" (Heap.mk [exDatasetScenarioA]) 0
        ⟨"https://x/doc", 200, "OK", "", []⟩).1.get 0 = (Heap.mk [exDatasetScenarioA]).get 0 ∧
      ∀ rs, (saveSolidDatasetAtRef "https://x/doc" (Heap.mk [exDatasetScenarioA]) 0
        ⟨"https://x/doc", 200, "OK", "", []⟩).2 = .ok rs →
        rs ≠ 0 ∧
        ((saveSolidDatasetAtRef "https://x/doc" (Heap.mk [exDatasetScenarioA]) 0
          ⟨"https://x/doc", 200, "OK", "", []⟩).1.get rs).changeLog = some ⟨[], []⟩ ∧
        getSourceUrl ((saveSolidDatasetAtRef "https://x/doc" (Heap.mk [exDatasetScenarioA]) 0
          ⟨"https://x/doc", 200, "OK", "", []⟩).1.get rs) = some "https://x/doc") :=
  ⟨by decide,
   c3_no_mutation "https://x/doc" (Heap.mk [exDatasetScenarioA]) 0
     ⟨"https://x/doc", 200, "OK", "", []⟩ (by decide)⟩

/-! Claim C6: local refusal of non-container delete targets. -/

/-- Claim C6: `deleteContainer` throws synchronously — issuing no
request at all — whenever the target's location does not end with the
container path separator, and issues its single DELETE request exactly
when the location does end with the separator. -/
theorem c6_delete_container_guard (container : ResourceArg) (responses : List Response) :
    (strEndsWith (resourceArgUrl container) "/" = false →
      deleteContainer container responses =
        ([], .error (.error ("You\x27re trying to delete the Container at [" ++ resourceArgUrl container
          ++ "], but Container URLs should end in a `/`. Are you sure this is a Container?")))) ∧
    ((deleteContainer container responses).1 ≠ [] ↔ strEndsWith (resourceArgUrl container) "/" = true) ∧
    (strEndsWith (resourceArgUrl container) "/" = true →
      (deleteContainer container responses).1 = [deleteRequest (resourceArgUrl container)]) := by
  cases hc : strEndsWith (resourceArgUrl container) "/" <;>
    simp [deleteContainer, isContainer, hc]

/-- Claim C6, witness (Scenario D): deleting the container at the
separator-less location `https://x/doc` fails with no request issued. -/
theorem c6_delete_container_guard_witness :
    strEndsWith (resourceArgUrl (.byUrl "https://x/doc")) "/" = false ∧
    deleteContainer (.byUrl "https://x/doc") [] =
      ([], .error (.error ("You\x27re trying to delete the Container at [" ++ resourceArgUrl (.byUrl "https://x/doc")
        ++ "], but Container URLs should end in a `/`. Are you sure this is a Container?"))) :=
  ⟨by decide, (c6_delete_container_guard (.byUrl "https://x/doc") []).1 (by decide)⟩

/-! Claim C7: error detail on a failed save. -/

/-- Claim C7: a non-2xx response to `saveSolidDatasetAt` produces a
`FetchError` whose status code is the response's status, whose status
text is the response's status text, which carries the original
response, and whose message embeds the rendering of exactly what was
sent — the change-log diff in patch mode, the whole dataset in replace
mode. -/
theorem c7_save_error_details (url : String) (d : SolidDataset) (resp : Response)
    (hu : internal_isUnsuccessfulResponse resp = true) :
    ∃ msg,
      saveSolidDatasetAt url d resp = .error (.fetchError msg resp) ∧
      msg = "Storing the Resource at [" ++ url ++ "] failed: [" ++ toString resp.status ++ "] ["
        ++ resp.statusText ++ "].\n\n" ++
        (if isUpdate (internal_withChangeLog d) url then
          "The changes that were sent to the Pod are listed below.\n\n"
            ++ changeLogAsMarkdown (internal_withChangeLog d)
        else
          "The SolidDataset that was sent to the Pod is listed below.\n\n"
            ++ solidDatasetAsMarkdown (internal_withChangeLog d)) ∧
      SaveError.statusCode (.fetchError msg resp) = some resp.status ∧
      SaveError.statusText (.fetchError msg resp) = some resp.statusText ∧
      SaveError.response (.fetchError msg resp) = some resp := by
  refine ⟨_, ?_, rfl, rfl, rfl, rfl⟩
  simp [saveSolidDatasetAt, saveFailureError, hu]

/-- Claim C7, witness (Scenario E): a 403 on the Scenario A save yields
a `FetchError` with status code 403 whose message embeds the diff. -/
theorem c7_save_error_details_witness :
    internal_isUnsuccessfulResponse ⟨"https://x/doc", 403, "Forbidden", "", []⟩ = true ∧
    ∃ msg,
      saveSolidDatasetAt "https://x/doc" exDatasetScenarioA ⟨"https://x/doc", 403, "Forbidden", "", []⟩ =
        .error (.fetchError msg ⟨"https://x/doc", 403, "Forbidden", "", []⟩) ∧
      msg = "Storing the Resource at [" ++ "https://x/doc" ++ "] failed: ["
        ++ toString (Response.mk "https://x/doc" 403 "Forbidden" "" []).status ++ "] ["
        ++ (Response.mk "https://x/doc" 403 "Forbidden" "" []).statusText ++ "].\n\n" ++
        (if isUpdate (internal_withChangeLog exDatasetScenarioA) "https://x/doc" then
          "The changes that were sent to the Pod are listed below.\n\n"
            ++ changeLogAsMarkdown (internal_withChangeLog exDatasetScenarioA)
        else
          "The SolidDataset that was sent to the Pod is listed below.\n\n"
            ++ solidDatasetAsMarkdown (internal_withChangeLog exDatasetScenarioA)) ∧
      SaveError.statusCode (.fetchError msg ⟨"https://x/doc", 403, "Forbidden", "", []⟩) =
        some (Response.mk "https://x/doc" 403 "Forbidden" "" []).status ∧
      SaveError.statusText (.fetchError msg ⟨"https://x/doc", 403, "Forbidden", "", []⟩) =
        some (Response.mk "https://x/doc" 403 "Forbidden" "" []).statusText ∧
      SaveError.response (.fetchError msg ⟨"https://x/doc", 403, "Forbidden", "", []⟩) =
        some (Response.mk "https://x/doc" 403 "Forbidden" "" []) :=
  ⟨by decide,
   c7_save_error_details "https://x/doc" exDatasetScenarioA
     ⟨"https://x/doc", 403, "Forbidden", "", []⟩ (by decide)⟩

/-! Claim C9: container creation targets a separator-terminated
location. -/

lemma strEndsWith_append (s p : String) : strEndsWith (s ++ p) p = true := by
  unfold strEndsWith
  rw [String.data_append]
  have hlen : (s.data ++ p.data).length - p.data.length = s.data.length := by
    rw [List.length_append]; omega
  rw [hlen, List.drop_left]
  simp [List.length_append]

/-- Claim C9: the container-creation request of `createContainerAt` is
a PUT with create-only conditional header and container-type link
header, and it is only ever issued at a location ending with the
container path separator (the given URL, normalized to end in one). -/
theorem c9_container_put_url (url : String) (responses : List Response) :
    (createContainerAt url responses).1.head? =
      some (createContainerRequest (if strEndsWith url "/" then url else url ++ "/")) ∧
    strEndsWith (if strEndsWith url "/" then url else url ++ "/") "/" = true ∧
    (createContainerRequest (if strEndsWith url "/" then url else url ++ "/")).init =
      { method := "PUT", body := none,
        headers :=
          [("Accept", "text/turtle"),
           ("Content-Type", "text/turtle"),
           ("If-None-Match", "*"),
           ("Link", "<" ++ ldpBasicContainer ++ ">; rel=\"type\"")] } := by
  refine ⟨?_, ?_, rfl⟩
  · unfold createContainerAt
    dsimp only
    split
    · split
      · rfl
      · rfl
    · rfl
  · cases hc : strEndsWith url "/"
    · simpa [hc] using strEndsWith_append url "/"
    · simp [hc]

/-! Claim C5: the NSS fallback trigger. -/

lemma workaround_trace_length_pos (u : String) (rs : List Response) :
    0 < (createContainerWithNssWorkaroundAt u rs).1.length := by
  unfold createContainerWithNssWorkaroundAt
  dsimp only
  split_ifs <;> simp

/-- The NSS signature response with whitespace padding around the known
message body. -/
def c5PaddedResponse : Response :=
  ⟨"https://x/c/", 409, "Conflict",
   internal_NSS_CREATE_CONTAINER_SPEC_NONCOMPLIANCE_DETECTION_ERROR_MESSAGE_TO_WORKAROUND_THEIR_ISSUE_1465 ++ "\n",
   []⟩

/-- Store responses that drive the NSS workaround to success after the
padded 409. -/
def c5Responses : List Response :=
  [c5PaddedResponse,
   ⟨"https://x/c/", 404, "Not Found", "", []⟩,
   ⟨"https://x/c/.dummy", 201, "Created", "", []⟩,
   ⟨"https://x/c/.dummy", 200, "OK", "", []⟩,
   ⟨"https://x/c/", 200, "OK", "", [("Content-Type", "text/turtle")]⟩]

/-- Claim C5, counterexample: a 409 Conflict whose body is the known
NSS message with a trailing newline — so not equal to the message —
still triggers the throwaway-child fallback (the engine compares the
trimmed body), refuting the claim that the fallback fires only on a
body equal to the message. -/
theorem c5_counterexample :
    c5PaddedResponse.body ≠
      internal_NSS_CREATE_CONTAINER_SPEC_NONCOMPLIANCE_DETECTION_ERROR_MESSAGE_TO_WORKAROUND_THEIR_ISSUE_1465 ∧
    strTrim c5PaddedResponse.body =
      internal_NSS_CREATE_CONTAINER_SPEC_NONCOMPLIANCE_DETECTION_ERROR_MESSAGE_TO_WORKAROUND_THEIR_ISSUE_1465 ∧
    (createContainerAt "https://x/c/" c5Responses).1 =
      [createContainerRequest "https://x/c/",
       headRequest "https://x/c/",
       putDummyRequest "https://x/c/.dummy",
       deleteRequest "https://x/c/.dummy",
       headRequest "https://x/c/"] ∧
    (createContainerAt "https://x/c/" c5Responses).2 =
      .ok ⟨[], some (internal_parseResourceInfo ⟨"https://x/c/", 200, "OK", "", [("Content-Type", "text/turtle")]⟩),
           some ⟨[], []⟩⟩ := by
  refine ⟨by decide, by decide, by decide, rfl⟩

/-- Claim C5 (amended): on an unsuccessful container-creation response,
`createContainerAt` falls back to the throwaway-child workaround if and
only if the response has status 409, status text Conflict, and a body
that equals the known NSS message after trimming surrounding
whitespace; every other unsuccessful response is surfaced as a
`FetchError` carrying that response (and so its status code and status
text), never masked by the fallback. -/
theorem c5_fallback_iff (url : String) (responses : List Response) (r0 : Response)
    (hr0 : responses.getD 0 default = r0)
    (hu : internal_isUnsuccessfulResponse r0 = true) :
    ((r0.status = 409 ∧ r0.statusText = "Conflict" ∧
      strTrim r0.body =
        internal_NSS_CREATE_CONTAINER_SPEC_NONCOMPLIANCE_DETECTION_ERROR_MESSAGE_TO_WORKAROUND_THEIR_ISSUE_1465) →
      createContainerAt url responses =
        (createContainerRequest (if strEndsWith url "/" then url else url ++ "/") ::
          (createContainerWithNssWorkaroundAt (if strEndsWith url "/" then url else url ++ "/") (responses.drop 1)).1,
         (createContainerWithNssWorkaroundAt (if strEndsWith url "/" then url else url ++ "/") (responses.drop 1)).2)) ∧
    (¬(r0.status = 409 ∧ r0.statusText = "Conflict" ∧
      strTrim r0.body =
        internal_NSS_CREATE_CONTAINER_SPEC_NONCOMPLIANCE_DETECTION_ERROR_MESSAGE_TO_WORKAROUND_THEIR_ISSUE_1465) →
      createContainerAt url responses =
        ([createContainerRequest (if strEndsWith url "/" then url else url ++ "/")],
         .error (.fetchError
           ("Creating the empty Container at [" ++ (if strEndsWith url "/" then url else url ++ "/")
             ++ "] failed: [" ++ toString r0.status ++ "] ["
             ++ r0.statusText ++ "].")
           r0))) ∧
    ((createContainerAt url responses).1.length > 1 ↔
      (r0.status = 409 ∧ r0.statusText = "Conflict" ∧
       strTrim r0.body =
         internal_NSS_CREATE_CONTAINER_SPEC_NONCOMPLIANCE_DETECTION_ERROR_MESSAGE_TO_WORKAROUND_THEIR_ISSUE_1465)) := by
  by_cases h1 : r0.status = 409 <;>
    by_cases h2 : r0.statusText = "Conflict" <;>
      by_cases h3 : strTrim r0.body =
        internal_NSS_CREATE_CONTAINER_SPEC_NONCOMPLIANCE_DETECTION_ERROR_MESSAGE_TO_WORKAROUND_THEIR_ISSUE_1465 <;>
    (simp only [createContainerAt]
     rw [hr0]
     simp [hu, h1, h2, h3, Nat.succ_lt_succ_iff, workaround_trace_length_pos])

/-- Claim C5 (amended), witness: a 403 is surfaced as a `FetchError`
with its own status, and the padded 409 takes the fallback branch. -/
theorem c5_fallback_iff_witness :
    internal_isUnsuccessfulResponse ((([⟨"https://x/c/", 403, "Forbidden", "", []⟩] : List Response)).getD 0 default) = true ∧
    createContainerAt "https://x/c/" [⟨"https://x/c/", 403, "Forbidden", "", []⟩] =
      ([createContainerRequest "https://x/c/"],
       .error (.fetchError
         ("Creating the empty Container at [" ++ "https://x/c/" ++ "] failed: ["
           ++ toString ((([⟨"https://x/c/", 403, "Forbidden", "", []⟩] : List Response)).getD 0 default).status ++ "] ["
           ++ ((([⟨"https://x/c/", 403, "Forbidden", "", []⟩] : List Response)).getD 0 default).statusText ++ "].")
         ((([⟨"https://x/c/", 403, "Forbidden", "", []⟩] : List Response)).getD 0 default))) :=
  ⟨by decide,
   by
    have h := (c5_fallback_iff "https://x/c/" [⟨"https://x/c/", 403, "Forbidden", "", []⟩]
      ⟨"https://x/c/", 403, "Forbidden", "", []⟩ rfl (by decide)).2.1 (by decide)
    simpa using h⟩

/-! Claim C8: resolution of location headers. -/

/-- A successful child-creation response carrying the relative location
header `a/b`. -/
def c8Response : Response :=
  ⟨"https://x/c/", 201, "Created", "", [("Location", "a/b")]⟩

/-- Claim C8, counterexample: posting into the container
`https://x/c/` and receiving the relative location header `a/b`, the
engine stores `https://x/a/b` — the header resolved against the
container URL's origin — which is not the resolution of the header
against the resource's own final location, nor against the container
URL itself; so relative location headers are not resolved against the
resource's final location. -/
theorem c8_counterexample :
    (saveSolidDatasetInContainer "https://x/c/" exDatasetNoChangeLog none [c8Response]).2 =
      .ok (resolveLocalIrisInSolidDataset
        { internal_cloneResource exDatasetNoChangeLog with
          resourceInfo := some ⟨some "https://x/a/b", false, none⟩ }) ∧
    getSourceUrl (resolveLocalIrisInSolidDataset
        { internal_cloneResource exDatasetNoChangeLog with
          resourceInfo := some ⟨some "https://x/a/b", false, none⟩ }) = some "https://x/a/b" ∧
    urlResolve "a/b" "https://x/a/b" ≠ "https://x/a/b" ∧
    urlResolve "a/b" "https://x/c/" ≠ "https://x/a/b" := by
  refine ⟨by decide, by decide, by decide, by decide⟩

/-- Claim C8 (amended): a location header received after
`saveSolidDatasetInContainer` or `createContainerInContainer` is
resolved against the origin of the container URL into an absolute URL
before being stored as the new resource's source location. -/
theorem c8_location_resolution (containerUrl : String) (d : SolidDataset) (slug : Option String)
    (responses : List Response) (r0 : Response) (loc : String)
    (hr0 : responses.getD 0 default = r0)
    (hok : internal_isUnsuccessfulResponse r0 = false)
    (hloc : headerGet r0.headers "Location" = some loc) :
    (∃ ds, (saveSolidDatasetInContainer containerUrl d slug responses).2 = .ok ds ∧
      getSourceUrl ds = some (urlResolve loc (urlOrigin containerUrl))) ∧
    (∃ ds, (createContainerInContainer containerUrl slug responses).2 = .ok ds ∧
      getSourceUrl ds = some (urlResolve loc (urlOrigin containerUrl))) := by
  constructor
  · have hrun : (saveSolidDatasetInContainer containerUrl d slug responses).2 =
        .ok (resolveLocalIrisInSolidDataset
          { internal_cloneResource d with
            resourceInfo := some ⟨some (urlResolve loc (urlOrigin containerUrl)), false, none⟩ }) := by
      simp only [saveSolidDatasetInContainer]
      rw [hr0]
      simp [hok, hloc]
    exact ⟨_, hrun, by simp [getSourceUrl, resolveLocalIris_resourceInfo]⟩
  · have hrun : (createContainerInContainer containerUrl slug responses).2 =
        .ok ⟨[], some ⟨some (urlResolve loc (urlOrigin containerUrl)), false, none⟩, none⟩ := by
      simp only [createContainerInContainer]
      rw [hr0]
      simp [hok, hloc]
    exact ⟨_, hrun, by simp [getSourceUrl]⟩

/-- Claim C8 (amended), witness: an absolute-path location header
`/c/child` posted to `https://x/c/` is stored as the absolute URL
`https://x/c/child`. -/
theorem c8_location_resolution_witness :
    internal_isUnsuccessfulResponse (([⟨"https://x/c/", 201, "Created", "", [("Location", "/c/child")]⟩] : List Response).getD 0 default) = false ∧
    ∃ ds, (saveSolidDatasetInContainer "https://x/c/" exDatasetNoChangeLog none
        [⟨"https://x/c/", 201, "Created", "", [("Location", "/c/child")]⟩]).2 = .ok ds ∧
      getSourceUrl ds = some (urlResolve "/c/child" (urlOrigin "https://x/c/")) :=
  ⟨by decide,
   (c8_location_resolution "https://x/c/" exDatasetNoChangeLog none
     [⟨"https://x/c/", 201, "Created", "", [("Location", "/c/child")]⟩]
     ⟨"https://x/c/", 201, "Created", "", [("Location", "/c/child")]⟩ "/c/child"
     rfl (by decide) (by decide)).1⟩

end SolidClient
